/-
Verification of the Content-Pilot workflow execution engine.

This file gives a shallow embedding, in Lean 4, of the engine implemented in
the repository's flow controller (the `useFlowController` hook: `initialNodes`,
`performLayout`, `handleOrchestratePlan`, `onUpdateNodeConfig`, `onDeleteNode`,
`handleToggleModule`, `runFlow`, `resetFlow`), of the gemini service functions
`planWorkflow` and `generateImage`, and of the publisher node's
`handlePostTweet` handler.  External AI / social API calls are modelled as
oracles (the `Collaborators` record): the engine's control flow around them is
translated faithfully, including JavaScript truthiness of the optional string
and number fields it branches on.

Positions and view-fitting are pure canvas geometry and are not modelled; the
`hidden` flag is kept because `runFlow` and `performLayout` branch on it.
-/
import Mathlib

namespace ContentPilot

/-- The seven module kinds of the pipeline (`ModuleType` in the source). -/
inductive ModuleType
  | INPUT | SEARCH | WRITE | IMAGE | PREVIEW | PUBLISHER | OUTPUT
  deriving DecidableEq, Repr

/-- Per-stage run status (`'IDLE' | 'RUNNING' | 'COMPLETED' | 'ERROR'`). -/
inductive Status
  | IDLE | RUNNING | COMPLETED | ERROR
  deriving DecidableEq, Repr

/-- Result of the research collaborator (`CrawlResult` in the source);
sources are (title, uri) pairs. -/
structure CrawlResult where
  summary : String
  sources : List (String × String)
  rawText : String
  deriving DecidableEq, Repr

/-- Result of the compose collaborator (`GeneratedPost` in the source). -/
structure GeneratedPost where
  content : String
  hashtags : List String
  imagePrompt : String
  deriving DecidableEq, Repr

/-- A stage's configuration map (`ModuleInstance.config` in the source).
Every field is optional in TypeScript; `none` models `undefined`. -/
structure ModuleConfig where
  enabled : Option Bool := none
  inputValue : Option String := none
  selectedImage : Option String := none
  twitterAccessToken : Option String := none
  tone : Option String := none
  platform : Option String := none
  language : Option String := none
  length : Option String := none
  imageCount : Option Nat := none
  imageStyle : Option String := none
  previewMode : Option String := none
  deriving DecidableEq, Repr

/-- The shared run context (`FlowContext` in the source). -/
structure FlowContext where
  topic : Option String := none
  inputImage : Option String := none
  twitterAccessToken : Option String := none
  crawlResult : Option CrawlResult := none
  generatedPost : Option GeneratedPost := none
  generatedImages : Option (List String) := none
  deriving DecidableEq, Repr

/-- The payload written to a stage's `output` slot (`any` in the source):
research results, a composed post, an image list, or a snapshot of the
whole context (for PREVIEW / PUBLISHER / OUTPUT). -/
inductive NodeOutput
  | crawl (r : CrawlResult)
  | post (p : GeneratedPost)
  | images (imgs : List String)
  | contextSnap (c : FlowContext)
  deriving DecidableEq, Repr

/-- One registry entry: a react-flow node together with its `data` payload.
`data.moduleType` always mirrors `node.type` in the source (both are set
to the same literal at creation and never diverge), so a single `type`
field stands for both.  Canvas position is not modelled. -/
structure FlowNode where
  id : String
  type : ModuleType
  hidden : Bool := false
  status : Status := .IDLE
  config : ModuleConfig := {}
  output : Option NodeOutput := none
  error : Option String := none
  deriving DecidableEq, Repr

/-- JavaScript truthiness of an optional string: `undefined` and `""` are
falsy, every other string is truthy. -/
def strTruthy (s : Option String) : Bool := !(s.getD "" == "")

/-- JavaScript `a || d` for an optional string `a` and a default literal `d`. -/
def orDefault (s : Option String) (d : String) : String :=
  if strTruthy s then s.getD "" else d

/-- JavaScript truthiness of an optional boolean (`undefined` is falsy). -/
def boolTruthy (b : Option Bool) : Bool := b.getD false

/-- Whether the first character list is a prefix of the second. -/
def charsPrefixOf : List Char → List Char → Bool
  | [], _ => true
  | _ :: _, [] => false
  | a :: pa, b :: sb => a == b && charsPrefixOf pa sb

/-- Whether `pat` occurs as a contiguous run inside the second list. -/
def charsSub (pat : List Char) : List Char → Bool
  | [] => pat.isEmpty
  | b :: sb => charsPrefixOf pat (b :: sb) || charsSub pat sb

/-- Whether `pat` occurs as a substring of `s` (JavaScript `s.includes(pat)`). -/
def strContains (s pat : String) : Bool := charsSub pat.toList s.toList

/-- Per-character lowering (`Char.toLower`), which agrees with JavaScript's
`toLowerCase()` on the ASCII messages this engine produces. -/
def lowerString (s : String) : String := String.mk (s.toList.map Char.toLower)

/-- `e.message.includes('429') || e.message.toLowerCase().includes('quota')`:
the error-message rewriting applied by `runFlow`'s catch block. -/
def rewriteQuota (msg : String) : String :=
  if strContains msg "429" || strContains (lowerString msg) "quota" then
    "API Quota Exceeded. Please check your billing or API limits."
  else msg

/-- Bool test for the INPUT kind (`n.type === 'INPUT'`). -/
def isInputType : ModuleType → Bool
  | .INPUT => true
  | _ => false

/-- Bool test for the mandatory kinds (`n.type === 'INPUT' || n.type === 'OUTPUT'`). -/
def isMandatoryType : ModuleType → Bool
  | .INPUT => true
  | .OUTPUT => true
  | _ => false

/-- The declared initial INPUT node of `initialNodes`. -/
def nodeInput0 : FlowNode :=
  { id := "input", type := .INPUT,
    config := { inputValue := some "", enabled := some true } }

/-- The declared initial SEARCH node of `initialNodes`. -/
def nodeSearch0 : FlowNode :=
  { id := "search", type := .SEARCH, hidden := true,
    config := { enabled := some false } }

/-- The declared initial WRITE node of `initialNodes`. -/
def nodeWrite0 : FlowNode :=
  { id := "write", type := .WRITE, hidden := true,
    config := { tone := some "Conversational / Casual",
                language := some "Vietnamese", enabled := some false } }

/-- The declared initial IMAGE node of `initialNodes`. -/
def nodeImage0 : FlowNode :=
  { id := "image", type := .IMAGE, hidden := true,
    config := { imageCount := some 3, enabled := some false } }

/-- The declared initial PREVIEW node of `initialNodes`. -/
def nodePreview0 : FlowNode :=
  { id := "preview", type := .PREVIEW, hidden := true,
    config := { previewMode := some "Twitter", enabled := some false } }

/-- The declared initial PUBLISHER node of `initialNodes`. -/
def nodePublisher0 : FlowNode :=
  { id := "publisher", type := .PUBLISHER, hidden := true,
    config := { enabled := some false } }

/-- The declared initial OUTPUT node of `initialNodes`. -/
def nodeOutput0 : FlowNode :=
  { id := "output", type := .OUTPUT, config := { enabled := some true } }

/-- `initialNodes`: the declared default registry (source lines 180-214). -/
def initialNodes : List FlowNode :=
  [nodeInput0, nodeSearch0, nodeWrite0, nodeImage0,
   nodePreview0, nodePublisher0, nodeOutput0]

/-- The visibility sync `performLayout` applies to one node:
`hidden := (config.enabled === false)`. -/
def layoutNode (n : FlowNode) : FlowNode :=
  { n with hidden := n.config.enabled == some false }

/-- The visibility/adjacency sync done by `performLayout` over the registry
(positions and edges are canvas geometry and are not modelled). -/
def performLayoutRegistry (ns : List FlowNode) : List FlowNode :=
  ns.map layoutNode

/-- `performLayout`'s `activeNodes`: the nodes that are not hidden after the
visibility sync, i.e. the stages with `enabled !== false`, in registry
order.  This is the spec's active execution order. -/
def activeOrder (ns : List FlowNode) : List FlowNode :=
  ns.filter fun n => !(n.config.enabled == some false)

/-- The per-node update of `handleToggleModule`: the addressed node's
`enabled` is flipped unless it is an INPUT or OUTPUT node. -/
def toggleNode (id : String) (n : FlowNode) : FlowNode :=
  if n.id == id then
    if isMandatoryType n.type then n
    else { n with config :=
      { n.config with enabled := some (!(boolTruthy n.config.enabled)) } }
  else n

/-- `handleToggleModule`: flips `enabled` of the addressed node unless it is
an INPUT or OUTPUT node, then re-runs the layout sync (animation off). -/
def handleToggleModule (id : String) (ns : List FlowNode) : List FlowNode :=
  performLayoutRegistry (ns.map (toggleNode id))

/-- A partial configuration object, as passed to `onUpdateNodeConfig`:
each field is either absent from the update object (`none`) or present
with a (possibly `undefined`) value. -/
structure ConfigPatch where
  enabled : Option (Option Bool) := none
  inputValue : Option (Option String) := none
  selectedImage : Option (Option String) := none
  twitterAccessToken : Option (Option String) := none
  tone : Option (Option String) := none
  platform : Option (Option String) := none
  language : Option (Option String) := none
  imageCount : Option (Option Nat) := none
  imageStyle : Option (Option String) := none
  previewMode : Option (Option String) := none
  deriving DecidableEq, Repr

/-- Object spread `{ ...config, ...updates }` over the known config keys. -/
def mergeConfig (c : ModuleConfig) (p : ConfigPatch) : ModuleConfig :=
  { c with
    enabled := p.enabled.getD c.enabled,
    inputValue := p.inputValue.getD c.inputValue,
    selectedImage := p.selectedImage.getD c.selectedImage,
    twitterAccessToken := p.twitterAccessToken.getD c.twitterAccessToken,
    tone := p.tone.getD c.tone,
    platform := p.platform.getD c.platform,
    language := p.language.getD c.language,
    imageCount := p.imageCount.getD c.imageCount,
    imageStyle := p.imageStyle.getD c.imageStyle,
    previewMode := p.previewMode.getD c.previewMode }

/-- The per-node update of `onUpdateNodeConfig`. -/
def updateCfgNode (id : String) (p : ConfigPatch) (n : FlowNode) : FlowNode :=
  if n.id == id then { n with config := mergeConfig n.config p } else n

/-- `onUpdateNodeConfig`: merges a partial config into the addressed node's
config; status and output are untouched, and no layout pass is run. -/
def onUpdateNodeConfig (id : String) (p : ConfigPatch) (ns : List FlowNode) :
    List FlowNode :=
  ns.map (updateCfgNode id p)

/-- `onDeleteNode`: removes every node with the given id (no guard on
mandatory stages in the operation itself; the UI only renders the delete
button for non-mandatory nodes). -/
def onDeleteNode (id : String) (ns : List FlowNode) : List FlowNode :=
  ns.filter fun n => !(n.id == id)

/-- Writer part of an orchestration plan's `config`. -/
structure PlanWriter where
  tone : Option String := none
  platform : Option String := none
  length : Option String := none
  language : Option String := none
  deriving DecidableEq, Repr

/-- Image part of an orchestration plan's `config`. -/
structure PlanImage where
  style : Option String := none
  count : Option Nat := none
  deriving DecidableEq, Repr

/-- `config` object of an orchestration plan. -/
structure PlanConfig where
  writer : Option PlanWriter := none
  image : Option PlanImage := none
  deriving DecidableEq, Repr

/-- The structured result of `planWorkflow`. -/
structure Plan where
  modules : List String := []
  config : PlanConfig := {}
  deriving DecidableEq, Repr

/-- The string name of a module kind, as it appears in a plan's `modules`. -/
def ModuleType.str : ModuleType → String
  | .INPUT => "INPUT"
  | .SEARCH => "SEARCH"
  | .WRITE => "WRITE"
  | .IMAGE => "IMAGE"
  | .PREVIEW => "PREVIEW"
  | .PUBLISHER => "PUBLISHER"
  | .OUTPUT => "OUTPUT"

/-- The per-node registry update performed by `handleOrchestratePlan` once a
plan has been obtained (source lines 318-357): INPUT/OUTPUT are forced
enabled, other stages are enabled iff listed in the plan, and deep
configuration is applied to WRITE/IMAGE/PREVIEW. -/
def planNode (plan : Plan) (n : FlowNode) : FlowNode :=
    let cfg1 :=
      if isMandatoryType n.type then { n.config with enabled := some true }
      else { n.config with enabled := some (plan.modules.contains n.type.str) }
    let cfg2 :=
      match plan.config.writer with
      | some w =>
        if n.type = .WRITE then
          let wa := if strTruthy w.tone then { cfg1 with tone := w.tone } else cfg1
          let wb := { wa with platform := some "Twitter" }
          let wc := if strTruthy w.length then { wb with length := w.length } else wb
          if strTruthy w.language then { wc with language := w.language } else wc
        else cfg1
      | none => cfg1
    let cfg3 :=
      match plan.config.image with
      | some im =>
        if n.type = .IMAGE then
          let ia := if strTruthy im.style then { cfg2 with imageStyle := im.style } else cfg2
          match im.count with
          | some k => if k == 0 then ia else { ia with imageCount := some k }
          | none => ia
        else cfg2
      | none => cfg2
    let cfg4 := if n.type = .PREVIEW then { cfg3 with previewMode := some "Twitter" } else cfg3
    { n with config := cfg4 }

/-- `handleOrchestratePlan`'s registry update followed by the layout sync. -/
def applyPlan (plan : Plan) (ns : List FlowNode) : List FlowNode :=
  performLayoutRegistry (ns.map (planNode plan))

/-- The per-node reset applied at the start of every run and by `resetFlow`:
status back to IDLE, output and error cleared, config kept. -/
def resetNode (n : FlowNode) : FlowNode :=
  { n with status := .IDLE, output := none, error := none }

/-- `resetFlow`: a hard reset that rebuilds the registry from `initialNodes`
(deep-copying each declared default config) regardless of the current
state. -/
def resetFlow (_s : List FlowNode) : List FlowNode :=
  initialNodes.map resetNode

/-- The external collaborator calls, treated as black boxes.  `imageAttempt`
is one `generateSingle` call of `generateImage`: it receives the prompt,
the optional reference image, the attempt index and the optional style,
and returns `none` when the attempt fails or yields no image part. -/
structure Collaborators where
  scanTopic : String → Except String CrawlResult
  generatePost : String → String → String → String → String → Option String →
    Except String GeneratedPost
  imageAttempt : String → Option String → Nat → Option String → Option String
  postTweet : String → Option String → Except String String

/-- `generateImage` (gemini service): runs `count` sequential attempts,
keeps the successful results in request order, and throws only when every
attempt failed.  The per-attempt call is abstracted as `attempt`. -/
def generateImage (attempt : Nat → Option String) (count : Nat) :
    Except String (List String) :=
  let validImages := (List.range count).filterMap attempt
  if validImages.length == 0 then
    Except.error "Failed to generate images. Please try fewer variations or check quotas."
  else Except.ok validImages

/-- The WRITE stage's input text
(`context.crawlResult?.summary || context.topic || "Generate content based on image"`). -/
def writeInput (ctx : FlowContext) : String :=
  let summary := ctx.crawlResult.map CrawlResult.summary
  if strTruthy summary then summary.getD ""
  else if strTruthy ctx.topic then ctx.topic.getD ""
  else "Generate content based on image"

/-- The body of `runFlow`'s per-stage `try` block: dispatch by stage kind,
returning the updated context and the payload stored in the stage's output
slot on success, or the thrown error message on failure. -/
def dispatch (c : Collaborators) (n : FlowNode) (ctx : FlowContext) :
    Except String (FlowContext × Option NodeOutput) :=
  let config := n.config
  if config.enabled == some false then
    Except.error "Reached disabled node unexpectedly"
  else
    match n.type with
    | .INPUT =>
      if !(strTruthy config.inputValue) && config.selectedImage.isNone then
        Except.error "Input empty"
      else
        let ctx1 := { ctx with topic := config.inputValue }
        let ctx2 :=
          if strTruthy config.twitterAccessToken then
            { ctx1 with twitterAccessToken := config.twitterAccessToken }
          else ctx1
        let ctx3 :=
          match config.selectedImage with
          | some img => { ctx2 with inputImage := some img }
          | none => ctx2
        Except.ok (ctx3, none)
    | .SEARCH =>
      if !(strTruthy ctx.topic) then Except.error "Missing topic"
      else
        match c.scanTopic (ctx.topic.getD "") with
        | .error e => Except.error e
        | .ok res => Except.ok ({ ctx with crawlResult := some res }, some (.crawl res))
    | .WRITE =>
      match c.generatePost (writeInput ctx)
          (orDefault config.tone "Conversational / Casual")
          (orDefault config.platform "Twitter")
          (orDefault config.language "Vietnamese")
          (orDefault config.length "Medium")
          ctx.inputImage with
      | .error e => Except.error e
      | .ok res => Except.ok ({ ctx with generatedPost := some res }, some (.post res))
    | .IMAGE =>
      let promptOpt := ctx.generatedPost.map GeneratedPost.imagePrompt
      if !(strTruthy promptOpt) && !(strTruthy ctx.topic) then
        Except.error "Missing prompt"
      else
        let prompt := if strTruthy promptOpt then promptOpt.getD "" else ctx.topic.getD ""
        let count :=
          match config.imageCount with
          | some k => if k == 0 then 3 else k
          | none => 3
        match generateImage (fun i => c.imageAttempt prompt ctx.inputImage i config.imageStyle) count with
        | .error e => Except.error e
        | .ok res => Except.ok ({ ctx with generatedImages := some res }, some (.images res))
    | .PREVIEW => Except.ok (ctx, some (.contextSnap ctx))
    | .PUBLISHER =>
      if ctx.generatedPost.isNone then Except.error "No post content."
      else Except.ok (ctx, some (.contextSnap ctx))
    | .OUTPUT => Except.ok (ctx, some (.contextSnap ctx))

/-- The mutable state of one run: the node list (as updated through
`updateNodeStatus`), the chronological log of status updates, and the
shared context. -/
structure RunState where
  nodes : List FlowNode
  events : List (String × Status)
  context : FlowContext
  deriving DecidableEq, Repr

/-- `updateNodeStatus(id, status, output?, error?)`: rewrites every node with
the given id and appends the update to the event log. -/
def updateNodeStatus (s : RunState) (id : String) (st : Status)
    (out : Option NodeOutput) (err : Option String) : RunState :=
  { s with
    nodes := s.nodes.map fun n =>
      if n.id == id then { n with status := st, output := out, error := err } else n,
    events := s.events ++ [(id, st)] }

/-- `runFlow`'s `visibleNodes`: `nodes.filter(n => !n.hidden && n.data.config.enabled !== false)`. -/
def visibleNodesOf (ns : List FlowNode) : List FlowNode :=
  ns.filter fun n => !n.hidden && !(n.config.enabled == some false)

/-- `Array.prototype.findIndex`, with `none` for the -1 result. -/
def findIndexJs (p : FlowNode → Bool) : List FlowNode → Option Nat
  | [] => none
  | a :: rest => if p a then some 0 else (findIndexJs p rest).map (· + 1)

/-- The `while (currentNode && safetyCounter < 50)` loop of `runFlow`.
`fuel` is `50 - safetyCounter`.  Each iteration marks the current stage
RUNNING, dispatches it, and on success either advances to the next visible
node of the captured registry `nodes0` or ends the run; on failure it marks
the stage ERROR with the thrown message and surfaces the (quota-rewritten)
message as the run's failure. -/
def runLoop (c : Collaborators) (nodes0 : List FlowNode) :
    Nat → FlowNode → RunState → RunState × Except String Unit
  | 0, _, s => (s, Except.ok ())
  | fuel + 1, cur, s =>
    let s1 := updateNodeStatus s cur.id .RUNNING none none
    match dispatch c cur s1.context with
    | .error msg =>
      (updateNodeStatus s1 cur.id .ERROR none (some msg), Except.error (rewriteQuota msg))
    | .ok (ctx2, out) =>
      let s2 := { updateNodeStatus s1 cur.id .COMPLETED out none with context := ctx2 }
      let vs := visibleNodesOf nodes0
      match findIndexJs (fun m => m.id == cur.id) vs with
      | some i =>
        if h : i + 1 < vs.length then runLoop c nodes0 fuel (vs.get ⟨i + 1, h⟩) s2
        else (s2, Except.ok ())
      | none => (s2, Except.ok ())

/-- `runFlow`: resets all statuses/outputs/errors, finds the first visible
INPUT node (failing the run if there is none), and drives the loop with a
safety ceiling of 50 processed stages.  The returned `Except` is the final
notification: `ok` for the success toast, `error` for the error toast. -/
def runFlow (c : Collaborators) (nodes : List FlowNode) :
    RunState × Except String Unit :=
  let s0 : RunState := { nodes := nodes.map resetNode, events := [], context := {} }
  match nodes.find? (fun n => isInputType n.type && !n.hidden) with
  | none => (s0, Except.error "No active Input module found.")
  | some inputNode => runLoop c nodes 50 inputNode s0

/-- The publisher node's `handlePostTweet` handler: resolves the token as
`config.twitterAccessToken || context?.twitterAccessToken`, then surfaces
one of three distinct failures (not authenticated, no content, post
failure) or the posted URL.  It does not touch any stage's status. -/
def handlePostTweet (c : Collaborators) (configToken : Option String)
    (ctx : FlowContext) : Except String String :=
  let token := if strTruthy configToken then configToken else ctx.twitterAccessToken
  if !(strTruthy token) then Except.error "Not authenticated with X"
  else
    match ctx.generatedPost with
    | none => Except.error "No content to post"
    | some post =>
      match c.postTweet post.content ((ctx.generatedImages.getD []).head?) with
      | .ok url => Except.ok url
      | .error e => Except.error ("Failed to post: " ++ e)

/-- The hard-coded fallback plan returned by the frontend `planWorkflow`
when orchestration fails. -/
def fallbackPlan : Plan :=
  { modules := ["WRITE", "PREVIEW"],
    config := { writer := some { tone := some "Conversational / Casual",
                                 language := some "Vietnamese",
                                 platform := some "Twitter" },
                image := some { count := some 1 } } }

/-- The frontend `planWorkflow`: the model call and `JSON.parse` are
abstracted as `modelResult` (thrown error, or the optional `response.text`)
and `parseJson`.  Every exception is caught and mapped to the fallback
plan; empty or missing text short-circuits to the empty plan. -/
def planWorkflow (modelResult : Except String (Option String))
    (parseJson : String → Except String Plan) : Plan :=
  match modelResult with
  | .error _ => fallbackPlan
  | .ok txt =>
    if !(strTruthy txt) then { modules := [], config := {} }
    else
      match parseJson (txt.getD "") with
      | .error _ => fallbackPlan
      | .ok p => p

instance {α β : Type} [DecidableEq α] [DecidableEq β] : DecidableEq (Except α β)
  | .error a, .error b =>
    if h : a = b then isTrue (by rw [h]) else isFalse (by intro hc; cases hc; exact h rfl)
  | .error _, .ok _ => isFalse (by intro hc; cases hc)
  | .ok _, .error _ => isFalse (by intro hc; cases hc)
  | .ok a, .ok b =>
    if h : a = b then isTrue (by rw [h]) else isFalse (by intro hc; cases hc; exact h rfl)

/-- Lookup of the (first) node with a given id in a run state's registry. -/
def nodeById (s : RunState) (x : String) : Option FlowNode :=
  s.nodes.find? fun n => n.id == x

/-- Concrete collaborators used in run examples: research and compose echo
their inputs, each image attempt yields its index, posting fails. -/
def collabEcho : Collaborators :=
  { scanTopic := fun topicStr =>
      Except.ok { summary := String.append "sum:" topicStr, sources := [], rawText := "" },
    generatePost := fun input _ _ _ _ _ =>
      Except.ok { content := input, hashtags := [], imagePrompt := "" },
    imageAttempt := fun _ _ i _ => some (Nat.repr i),
    postTweet := fun _ _ => Except.error "net down" }

/-- Collaborators whose research call fails with a quota-style message. -/
def collabQuota : Collaborators :=
  { collabEcho with scanTopic := fun _ => Except.error "429" }

/-- Collaborators whose research call fails with a generic message. -/
def collabBoom : Collaborators :=
  { collabEcho with scanTopic := fun _ => Except.error "boom" }

/-- Collaborators whose second image attempt (index 1) fails. -/
def collabImgPartial : Collaborators :=
  { collabEcho with imageAttempt := fun _ _ i _ => if i == 1 then none else some (Nat.repr i) }

/-- Collaborators whose image attempts all fail. -/
def collabImgFail : Collaborators :=
  { collabEcho with imageAttempt := fun _ _ _ _ => none }

/-- An enabled, visible INPUT node with the given topic text and reference image. -/
def nodeInputT (v : Option String) (img : Option String) : FlowNode :=
  { id := "input", type := .INPUT,
    config := { inputValue := v, selectedImage := img, enabled := some true } }

/-- An enabled, visible SEARCH node. -/
def nodeSearchOn : FlowNode :=
  { id := "search", type := .SEARCH, config := { enabled := some true } }

/-- An enabled, visible WRITE node. -/
def nodeWriteOn : FlowNode :=
  { id := "write", type := .WRITE, config := { enabled := some true } }

/-- An enabled, visible IMAGE node requesting `k` images. -/
def nodeImageOn (k : Nat) : FlowNode :=
  { id := "image", type := .IMAGE, config := { enabled := some true, imageCount := some k } }

/-- An enabled, visible PUBLISHER node. -/
def nodePublishOn : FlowNode :=
  { id := "publisher", type := .PUBLISHER, config := { enabled := some true } }

/-- An enabled, visible OUTPUT node. -/
def nodeOutOn : FlowNode :=
  { id := "output", type := .OUTPUT, config := { enabled := some true } }

/-- Registry with INPUT (topic "t"), SEARCH and OUTPUT active. -/
def nsSearchRun : List FlowNode := [nodeInputT (some "t") none, nodeSearchOn, nodeOutOn]

/-- Registry with INPUT (topic "moon"), WRITE and OUTPUT active; RESEARCH absent. -/
def nsWriteTopic : List FlowNode := [nodeInputT (some "moon") none, nodeWriteOn, nodeOutOn]

/-- Registry with INPUT (no topic, reference image attached), WRITE and OUTPUT active. -/
def nsWriteImage : List FlowNode := [nodeInputT none (some "IMG"), nodeWriteOn, nodeOutOn]

/-- Registry with INPUT (topic "t"), IMAGE (count 4) and OUTPUT active. -/
def nsImageRun : List FlowNode := [nodeInputT (some "t") none, nodeImageOn 4, nodeOutOn]

/-- Registry with INPUT (topic "t"), WRITE, PUBLISHER and OUTPUT active;
no Twitter token configured anywhere. -/
def nsPublishRun : List FlowNode :=
  [nodeInputT (some "t") none, nodeWriteOn, nodePublishOn, nodeOutOn]

/-- The registry states reachable from `initialNodes` through the
controller's operations as the UI exposes them: toggling, config updates
that do not touch `enabled` (no UI call site passes `enabled` to
`onUpdateNodeConfig`), deletion of nodes whose kind is not mandatory (the
delete button is only rendered when `moduleType` is not INPUT/OUTPUT),
auto-planning, and the hard reset. -/
inductive ReachableSafe : List FlowNode → Prop
  | init : ReachableSafe initialNodes
  | toggle (id : String) {ns : List FlowNode} :
      ReachableSafe ns → ReachableSafe (handleToggleModule id ns)
  | update (id : String) (p : ConfigPatch) {ns : List FlowNode}
      (h : p.enabled = none) :
      ReachableSafe ns → ReachableSafe (onUpdateNodeConfig id p ns)
  | delete (id : String) {ns : List FlowNode}
      (h : ∀ n ∈ ns, n.id = id → isMandatoryType n.type = false) :
      ReachableSafe ns → ReachableSafe (onDeleteNode id ns)
  | plan (pl : Plan) {ns : List FlowNode} :
      ReachableSafe ns → ReachableSafe (applyPlan pl ns)
  | reset (ns : List FlowNode) : ReachableSafe (resetFlow ns)

/-- The property claimed of the active execution order: it starts with an
INPUT stage, ends with an OUTPUT stage, and contains no disabled stage. -/
def activeOrderGood (ns : List FlowNode) : Prop :=
  (activeOrder ns).head?.map FlowNode.type = some ModuleType.INPUT ∧
  (activeOrder ns).getLast?.map FlowNode.type = some ModuleType.OUTPUT ∧
  ∀ n ∈ activeOrder ns, ¬ n.config.enabled = some false

/-- Structural invariant carried through the safe operations: the registry
is an enabled INPUT node, followed by arbitrary middle stages, followed by
an enabled OUTPUT node. -/
def registryShape (ns : List FlowNode) : Prop :=
  ∃ a mid z, ns = a :: (mid ++ [z]) ∧
    a.type = ModuleType.INPUT ∧ ¬ a.config.enabled = some false ∧
    z.type = ModuleType.OUTPUT ∧ ¬ z.config.enabled = some false

/-
Theorems.  General lemmas about the run machinery come first, then one
theorem per specification claim (with witnesses and counterexamples).
-/

theorem updateNodeStatus_context (s : RunState) (id : String) (st : Status)
    (out : Option NodeOutput) (err : Option String) :
    (updateNodeStatus s id st out err).context = s.context := rfl

theorem updateNodeStatus_events (s : RunState) (id : String) (st : Status)
    (out : Option NodeOutput) (err : Option String) :
    (updateNodeStatus s id st out err).events = s.events ++ [(id, st)] := rfl

theorem runLoop_zero (c : Collaborators) (ns0 : List FlowNode) (cur : FlowNode)
    (s : RunState) : runLoop c ns0 0 cur s = (s, Except.ok ()) := rfl

theorem runLoop_succ_err (c : Collaborators) (ns0 : List FlowNode) (fuel : Nat)
    (cur : FlowNode) (s : RunState) (msg : String)
    (hd : dispatch c cur s.context = Except.error msg) :
    runLoop c ns0 (fuel + 1) cur s =
      (updateNodeStatus (updateNodeStatus s cur.id .RUNNING none none)
         cur.id .ERROR none (some msg),
       Except.error (rewriteQuota msg)) := by
  simp only [runLoop, updateNodeStatus_context, hd]

theorem runLoop_succ_ok (c : Collaborators) (ns0 : List FlowNode) (fuel : Nat)
    (cur : FlowNode) (s : RunState) (ctx2 : FlowContext) (out : Option NodeOutput)
    (hd : dispatch c cur s.context = Except.ok (ctx2, out)) :
    runLoop c ns0 (fuel + 1) cur s =
      (match findIndexJs (fun m => m.id == cur.id) (visibleNodesOf ns0) with
       | some i =>
         if h : i + 1 < (visibleNodesOf ns0).length then
           runLoop c ns0 fuel ((visibleNodesOf ns0).get ⟨i + 1, h⟩)
             { updateNodeStatus (updateNodeStatus s cur.id .RUNNING none none)
                 cur.id .COMPLETED out none with context := ctx2 }
         else ({ updateNodeStatus (updateNodeStatus s cur.id .RUNNING none none)
                   cur.id .COMPLETED out none with context := ctx2 }, Except.ok ())
       | none => ({ updateNodeStatus (updateNodeStatus s cur.id .RUNNING none none)
                      cur.id .COMPLETED out none with context := ctx2 }, Except.ok ())) := by
  simp only [runLoop, updateNodeStatus_context, hd]

/-- Claim C8: `reset()` is idempotent — running it twice from any prior state
equals running it once — and the resulting state restores every stage to its
declared default config and enabled flag, with status IDLE and empty output
and error. -/
theorem resetFlow_idempotent_defaults (s : List FlowNode) :
    resetFlow (resetFlow s) = resetFlow s ∧
    resetFlow s = initialNodes ∧
    (∀ n ∈ resetFlow s, n.status = Status.IDLE ∧ n.output = none ∧ n.error = none) ∧
    (resetFlow s).map (fun n => (n.id, n.config.enabled, n.config)) =
      initialNodes.map (fun n => (n.id, n.config.enabled, n.config)) := by
  have h : resetFlow s = initialNodes := by
    show initialNodes.map resetNode = initialNodes
    decide
  refine ⟨rfl, h, ?_, ?_⟩
  · rw [h]; decide
  · rw [h]

/-- Claim C10: the frontend `planWorkflow` never raises: a failed model call
(or unparseable text) yields the hard-coded fallback plan, and empty or
missing text yields the empty plan; the fallback plan is exactly the one the
claim lists. -/
theorem planWorkflow_total_fallback :
    (∀ (e : String) (parseJson : String → Except String Plan),
        planWorkflow (Except.error e) parseJson = fallbackPlan) ∧
    (∀ parseJson : String → Except String Plan,
        planWorkflow (Except.ok none) parseJson = { modules := [], config := {} } ∧
        planWorkflow (Except.ok (some "")) parseJson = { modules := [], config := {} }) ∧
    (∀ (t : String) (parseJson : String → Except String Plan) (e : String),
        strTruthy (some t) = true → parseJson t = Except.error e →
        planWorkflow (Except.ok (some t)) parseJson = fallbackPlan) ∧
    (∀ (t : String) (parseJson : String → Except String Plan) (p : Plan),
        strTruthy (some t) = true → parseJson t = Except.ok p →
        planWorkflow (Except.ok (some t)) parseJson = p) ∧
    fallbackPlan =
      { modules := ["WRITE", "PREVIEW"],
        config := { writer := some { tone := some "Conversational / Casual",
                                     language := some "Vietnamese",
                                     platform := some "Twitter" },
                    image := some { count := some 1 } } } := by
  refine ⟨fun e pj => rfl, fun pj => ⟨rfl, rfl⟩, ?_, ?_, rfl⟩
  · intro t pj e ht hp
    simp [planWorkflow, ht, hp]
  · intro t pj p ht hp
    simp [planWorkflow, ht, hp]

/-- Witness for C10: a non-empty model response that fails to parse yields
the fallback plan. -/
theorem planWorkflow_total_fallback_witness :
    planWorkflow (Except.ok (some "x")) (fun _ => Except.error "bad json") = fallbackPlan :=
  planWorkflow_total_fallback.2.2.1 "x" (fun _ => Except.error "bad json") "bad json"
    (by decide) rfl

theorem find_map_id (f : FlowNode → FlowNode) (hid : ∀ n, (f n).id = n.id)
    (x : String) :
    ∀ l : List FlowNode,
      (l.map f).find? (fun n => n.id == x) = (l.find? (fun n => n.id == x)).map f := by
  intro l
  induction l with
  | nil => rfl
  | cons a t ih =>
    rw [List.map_cons, List.find?_cons, List.find?_cons, hid a]
    cases hpa : (a.id == x) with
    | true => simp
    | false => simp [ih]

theorem find_self_nodup :
    ∀ ns : List FlowNode, (ns.map FlowNode.id).Nodup →
      ∀ n ∈ ns, ns.find? (fun m => m.id == n.id) = some n := by
  intro ns
  induction ns with
  | nil => intro _ n hn; cases hn
  | cons a t ih =>
    intro hnd n hn
    rw [List.map_cons, List.nodup_cons] at hnd
    obtain ⟨hna, hts⟩ := hnd
    rcases List.mem_cons.mp hn with rfl | hmem
    · rw [List.find?_cons]
      simp
    · have hne : ¬ a.id = n.id := fun h => hna (h ▸ List.mem_map_of_mem FlowNode.id hmem)
      rw [List.find?_cons]
      have hb : (a.id == n.id) = false := by simp [hne]
      rw [hb]
      exact ih hts n hmem

theorem updateNodeStatus_nodes_map (s : RunState) (id : String) (st : Status)
    (out : Option NodeOutput) (err : Option String) :
    (updateNodeStatus s id st out err).nodes =
      s.nodes.map fun n =>
        if n.id == id then { n with status := st, output := out, error := err } else n := rfl

theorem updateNodeStatus_ids (s : RunState) (id : String) (st : Status)
    (out : Option NodeOutput) (err : Option String) :
    (updateNodeStatus s id st out err).nodes.map FlowNode.id = s.nodes.map FlowNode.id := by
  rw [updateNodeStatus_nodes_map, List.map_map]
  congr 1
  funext n
  by_cases h : n.id = id <;> simp [h]

theorem nodeById_setContext (s : RunState) (ctx : FlowContext) (x : String) :
    nodeById { s with context := ctx } x = nodeById s x := rfl

theorem nodeById_update_ne (s : RunState) (id : String) (st : Status)
    (out : Option NodeOutput) (err : Option String) (x : String) (hx : ¬ x = id) :
    nodeById (updateNodeStatus s id st out err) x = nodeById s x := by
  simp only [nodeById, updateNodeStatus_nodes_map]
  rw [find_map_id _ (fun n => by by_cases h : n.id = id <;> simp [h]) x]
  cases hf : s.nodes.find? (fun n => n.id == x) with
  | none => rfl
  | some m =>
    have hm : m.id = x := by simpa using List.find?_some hf
    simp [hm, hx]

theorem nodeById_update_self (s : RunState) (id : String) (st : Status)
    (out : Option NodeOutput) (err : Option String) (m : FlowNode)
    (hm : nodeById s id = some m) :
    nodeById (updateNodeStatus s id st out err) id =
      some { m with status := st, output := out, error := err } := by
  simp only [nodeById, updateNodeStatus_nodes_map] at *
  rw [find_map_id _ (fun n => by by_cases h : n.id = id <;> simp [h]) id, hm]
  have : m.id = id := by simpa using List.find?_some hm
  simp [this]

theorem runLoop_countP_le (c : Collaborators) (ns0 : List FlowNode) :
    ∀ (fuel : Nat) (cur : FlowNode) (s : RunState),
      (runLoop c ns0 fuel cur s).1.events.countP (fun e => e.2 == Status.RUNNING) ≤
        s.events.countP (fun e => e.2 == Status.RUNNING) + fuel := by
  intro fuel
  induction fuel with
  | zero => intro cur s; simp [runLoop_zero]
  | succ fuel ih =>
    intro cur s
    cases hd : dispatch c cur s.context with
    | error msg =>
      rw [runLoop_succ_err c ns0 fuel cur s msg hd]
      simp [updateNodeStatus_events, List.countP_append, List.countP_cons]
    | ok pair =>
      obtain ⟨ctx2, out⟩ := pair
      rw [runLoop_succ_ok c ns0 fuel cur s ctx2 out hd]
      cases hf : findIndexJs (fun m => m.id == cur.id) (visibleNodesOf ns0) with
      | none =>
        simp [updateNodeStatus_events, List.countP_append, List.countP_cons]
      | some i =>
        by_cases h : i + 1 < (visibleNodesOf ns0).length
        · simp only [hf, dif_pos h]
          refine le_trans (ih _ _) ?_
          simp [updateNodeStatus_events, List.countP_append, List.countP_cons]
          omega
        · simp only [hf, dif_neg h]
          simp [updateNodeStatus_events, List.countP_append, List.countP_cons]

/-- Claim C9: a run processes a bounded number of stages — the safety
counter caps loop iterations at 50, for every registry (corrupted ones
included), so the run terminates whenever each collaborator call does.
Stages processed are exactly the RUNNING entries of the event log. -/
theorem runFlow_bounded_stages (c : Collaborators) (ns : List FlowNode) :
    (runFlow c ns).1.events.countP (fun e => e.2 == Status.RUNNING) ≤ 50 := by
  simp only [runFlow]
  cases hf : ns.find? (fun n => isInputType n.type && !n.hidden) with
  | none => simp
  | some inputNode =>
    simpa using runLoop_countP_le c ns 50 inputNode
      { nodes := ns.map resetNode, events := [], context := {} }

/-- Claim C7: toggling a mandatory stage (INPUT or OUTPUT) is a no-op on the
stage data — enabled stays as it was (hence true), and id, kind, status,
config, output and error are all unchanged; toggling a non-mandatory stage
flips exactly the `enabled` flag and leaves every other field of the stage
unchanged.  Stages other than the addressed one keep all their data. -/
theorem toggle_flips_only_enabled (ns : List FlowNode) (tid : String)
    (hnd : (ns.map FlowNode.id).Nodup) :
    ∀ n ∈ ns, ∃ n2,
      (handleToggleModule tid ns).find? (fun m => m.id == n.id) = some n2 ∧
      n2.id = n.id ∧ n2.type = n.type ∧ n2.status = n.status ∧
      n2.output = n.output ∧ n2.error = n.error ∧
      ((¬ n.id = tid ∨ isMandatoryType n.type = true) → n2.config = n.config) ∧
      (n.id = tid → isMandatoryType n.type = false →
        n2.config = { n.config with enabled := some (!(boolTruthy n.config.enabled)) }) := by
  intro n hn
  have hidf : ∀ m : FlowNode, (layoutNode (toggleNode tid m)).id = m.id := by
    intro m
    simp only [layoutNode, toggleNode]
    by_cases h : m.id = tid <;> by_cases h2 : isMandatoryType m.type <;> simp [h, h2]
  have hcomp : handleToggleModule tid ns = ns.map (fun m => layoutNode (toggleNode tid m)) := by
    simp [handleToggleModule, performLayoutRegistry, List.map_map]
  refine ⟨layoutNode (toggleNode tid n), ?_, ?_⟩
  · rw [hcomp, find_map_id _ hidf n.id, find_self_nodup ns hnd n hn, Option.map_some']
  · simp only [layoutNode, toggleNode]
    by_cases h : n.id = tid <;> by_cases h2 : isMandatoryType n.type <;>
      simp [h, h2]

/-- Witness for C7: in the default registry, toggling the (mandatory) INPUT
stage leaves its data unchanged. -/
theorem toggle_flips_only_enabled_witness :
    ∃ n2, (handleToggleModule "input" initialNodes).find?
        (fun m => m.id == nodeInput0.id) = some n2 ∧
      n2.id = nodeInput0.id ∧ n2.type = nodeInput0.type ∧
      n2.status = nodeInput0.status ∧ n2.output = nodeInput0.output ∧
      n2.error = nodeInput0.error ∧
      ((¬ nodeInput0.id = "input" ∨ isMandatoryType nodeInput0.type = true) →
        n2.config = nodeInput0.config) ∧
      (nodeInput0.id = "input" → isMandatoryType nodeInput0.type = false →
        n2.config = { nodeInput0.config with
          enabled := some (!(boolTruthy nodeInput0.config.enabled)) }) :=
  toggle_flips_only_enabled initialNodes "input" (by decide) nodeInput0 (by decide)

/-- Claim C1 (amended): a run started while the active INPUT stage's config
has an empty topic and no reference image is rejected with the validation
error "Input empty" — but only after the INPUT stage itself has been set to
RUNNING: the event log is exactly INPUT:RUNNING then INPUT:ERROR, the INPUT
stage ends in ERROR with that message, and every other stage is left in its
freshly reset (IDLE, no output, no error) state, so no stage other than
INPUT ever reaches RUNNING. -/
theorem runFlow_input_validation (c : Collaborators) (ns : List FlowNode)
    (hnd : (ns.map FlowNode.id).Nodup) (n0 : FlowNode)
    (hf : ns.find? (fun n => isInputType n.type && !n.hidden) = some n0)
    (hen : ¬ n0.config.enabled = some false)
    (hval : strTruthy n0.config.inputValue = false)
    (himg : n0.config.selectedImage = none) :
    (runFlow c ns).2 = Except.error "Input empty" ∧
    (runFlow c ns).1.events = [(n0.id, Status.RUNNING), (n0.id, Status.ERROR)] ∧
    (∃ m, nodeById (runFlow c ns).1 n0.id = some m ∧ m.status = Status.ERROR ∧
      m.error = some "Input empty" ∧ m.output = none) ∧
    ∀ n ∈ ns, ¬ n.id = n0.id →
      nodeById (runFlow c ns).1 n.id = some (resetNode n) := by
  have htype : n0.type = ModuleType.INPUT := by
    have hp := List.find?_some hf
    cases t : n0.type <;> rw [t] at hp <;> simp [isInputType] at hp
  have hencfg : (n0.config.enabled == some false) = false := by simp [hen]
  set s0 : RunState := { nodes := ns.map resetNode, events := [], context := {} } with hs0
  have hd : dispatch c n0 s0.context = Except.error "Input empty" := by
    simp [dispatch, htype, hencfg, hval, himg]
  have hrun : runFlow c ns =
      (updateNodeStatus (updateNodeStatus s0 n0.id .RUNNING none none)
         n0.id .ERROR none (some "Input empty"),
       Except.error (rewriteQuota "Input empty")) := by
    have h50 : (50 : Nat) = 49 + 1 := rfl
    simp only [runFlow, hf, hs0]
    rw [h50, runLoop_succ_err c ns 49 n0 s0 "Input empty" hd]
  have hq : rewriteQuota "Input empty" = "Input empty" := by decide
  have hmem0 : n0 ∈ ns := List.mem_of_find?_eq_some hf
  have hbase : ∀ n ∈ ns, nodeById s0 n.id = some (resetNode n) := by
    intro n hn
    show (ns.map resetNode).find? (fun m => m.id == n.id) = some (resetNode n)
    rw [find_map_id resetNode (fun m => rfl) n.id ns, find_self_nodup ns hnd n hn,
      Option.map_some']
  refine ⟨?_, ?_, ?_, ?_⟩
  · rw [hrun]
    show Except.error (rewriteQuota "Input empty") = Except.error "Input empty"
    rw [hq]
  · rw [hrun]; simp [updateNodeStatus_events]
  · rw [hrun]
    have h1 := nodeById_update_self s0 n0.id .RUNNING none none (resetNode n0)
      (hbase n0 hmem0)
    have h2 := nodeById_update_self (updateNodeStatus s0 n0.id .RUNNING none none)
      n0.id .ERROR none (some "Input empty") _ h1
    exact ⟨_, h2, rfl, rfl, rfl⟩
  · intro n hn hne
    rw [hrun, nodeById_update_ne _ _ _ _ _ _ hne, nodeById_update_ne _ _ _ _ _ _ hne]
    exact hbase n hn

/-- Counterexample to Claim C1 as stated: with the default registry — whose
INPUT config has empty topic and no attached reference image — the run is
rejected with the validation error, yet the INPUT stage is set to RUNNING
before the validation throws, so a stage does reach RUNNING during the run. -/
theorem input_reaches_running_cx :
    (runFlow collabEcho initialNodes).2 = Except.error "Input empty" ∧
    ("input", Status.RUNNING) ∈ (runFlow collabEcho initialNodes).1.events :=
  ⟨by decide, by decide⟩

/-- Witness for C1 (amended), at the default registry. -/
theorem runFlow_input_validation_witness :
    (runFlow collabBoom initialNodes).2 = Except.error "Input empty" ∧
    (runFlow collabBoom initialNodes).1.events =
      [("input", Status.RUNNING), ("input", Status.ERROR)] := by
  have h := runFlow_input_validation collabBoom initialNodes (by decide) nodeInput0
    (by decide) (by decide) (by decide) (by decide)
  exact ⟨h.1, h.2.1⟩

/-- Claim C3: for a VISUAL stage requesting `count` images the collaborator
is attempted once per image, indexed sequentially; `generateImage` returns
exactly the successful attempts in request order and raises its error iff
every attempt failed.  In a run, a partial failure (1 of 4 attempts failing)
still completes the stage with the 3 surviving images in order, while total
failure marks the stage ERROR, leaves the next stage IDLE and fails the run. -/
theorem generateImage_partial_results :
    (∀ (attempt : Nat → Option String) (count : Nat),
        ((List.range count).filterMap attempt ≠ [] →
          generateImage attempt count =
            Except.ok ((List.range count).filterMap attempt)) ∧
        ((List.range count).filterMap attempt = [] →
          generateImage attempt count = Except.error
            "Failed to generate images. Please try fewer variations or check quotas.")) ∧
    ((runFlow collabImgPartial nsImageRun).2 = Except.ok () ∧
      (nodeById (runFlow collabImgPartial nsImageRun).1 "image").map
          (fun n => (n.status, n.output)) =
        some (Status.COMPLETED, some (NodeOutput.images ["0", "2", "3"])) ∧
      (runFlow collabImgPartial nsImageRun).1.context.generatedImages =
        some ["0", "2", "3"]) ∧
    ((nodeById (runFlow collabImgFail nsImageRun).1 "image").map
          (fun n => (n.status, n.error)) =
        some (Status.ERROR, some
          "Failed to generate images. Please try fewer variations or check quotas.") ∧
      (nodeById (runFlow collabImgFail nsImageRun).1 "output").map FlowNode.status =
        some Status.IDLE ∧
      (runFlow collabImgFail nsImageRun).2 ≠ Except.ok ()) := by
  refine ⟨?_, ⟨by decide, by decide, by decide⟩, ⟨by decide, by decide, by decide⟩⟩
  intro attempt count
  constructor
  · intro h
    have hl : (((List.range count).filterMap attempt).length == 0) = false := by
      simp [List.length_eq_zero, h]
    simp [generateImage, hl]
  · intro h
    simp [generateImage, h]

/-- Witness for C3: four attempts with the second failing yield the three
surviving images in request order. -/
theorem generateImage_partial_results_witness :
    generateImage (fun i => if i == 1 then none else some (Nat.repr i)) 4 =
      Except.ok ["0", "2", "3"] := by
  have h := (generateImage_partial_results.1
    (fun i => if i == 1 then none else some (Nat.repr i)) 4).1 (by decide)
  have he : (List.range 4).filterMap (fun i => if i == 1 then none else some (Nat.repr i)) =
      ["0", "2", "3"] := by decide
  rw [he] at h
  exact h

/-- Claim C4 (amended): the COMPOSE stage's input is
`context.researchResult.summary` when truthy, else `context.topic` when
truthy, else the literal `"Generate content based on image"` — so a run with
RESEARCH disabled still composes from the topic, and a run where both
summary and topic are missing does NOT fail: it composes from the literal
default prompt. -/
theorem writeInput_fallback_chain :
    (∀ ctx : FlowContext,
        (strTruthy (ctx.crawlResult.map CrawlResult.summary) = true →
          writeInput ctx = (ctx.crawlResult.map CrawlResult.summary).getD "") ∧
        (strTruthy (ctx.crawlResult.map CrawlResult.summary) = false →
          strTruthy ctx.topic = true → writeInput ctx = ctx.topic.getD "") ∧
        (strTruthy (ctx.crawlResult.map CrawlResult.summary) = false →
          strTruthy ctx.topic = false →
          writeInput ctx = "Generate content based on image")) ∧
    ((runFlow collabEcho nsWriteTopic).2 = Except.ok () ∧
      (nodeById (runFlow collabEcho nsWriteTopic).1 "write").map
          (fun n => (n.status, n.output)) =
        some (Status.COMPLETED,
          some (NodeOutput.post { content := "moon", hashtags := [], imagePrompt := "" }))) ∧
    ((runFlow collabEcho nsWriteImage).2 = Except.ok () ∧
      (runFlow collabEcho nsWriteImage).1.context.crawlResult = none ∧
      (runFlow collabEcho nsWriteImage).1.context.topic = none ∧
      (nodeById (runFlow collabEcho nsWriteImage).1 "write").map
          (fun n => (n.status, n.output)) =
        some (Status.COMPLETED,
          some (NodeOutput.post { content := "Generate content based on image",
                                  hashtags := [], imagePrompt := "" }))) := by
  refine ⟨?_, ⟨by decide, by decide⟩, ⟨by decide, by decide, by decide, by decide⟩⟩
  intro ctx
  refine ⟨?_, ?_, ?_⟩
  · intro h1; simp [writeInput, h1]
  · intro h1 h2; simp [writeInput, h1, h2]
  · intro h1 h2; simp [writeInput, h1, h2]

/-- Counterexample to Claim C4 as stated: in a run whose context has no
research summary and no topic (image-only input, RESEARCH disabled), the
COMPOSE stage does not fail — it completes and the run succeeds. -/
theorem write_both_missing_no_fail_cx :
    (runFlow collabEcho nsWriteImage).1.context.crawlResult = none ∧
    (runFlow collabEcho nsWriteImage).1.context.topic = none ∧
    (nodeById (runFlow collabEcho nsWriteImage).1 "write").map FlowNode.status =
      some Status.COMPLETED ∧
    (runFlow collabEcho nsWriteImage).2 = Except.ok () :=
  ⟨by decide, by decide, by decide, by decide⟩

/-- Witness for C4 (amended): the fallback chain evaluated at a context with
a truthy summary. -/
theorem writeInput_fallback_chain_witness :
    writeInput
      { topic := some "t",
        crawlResult := some { summary := "S", sources := [], rawText := "" } } = "S" :=
  (writeInput_fallback_chain.1
      { topic := some "t",
        crawlResult := some { summary := "S", sources := [], rawText := "" } }).1 (by decide)

/-- Claim C5 (amended): the sequencer itself never fails a run for a missing
auth token — a run executing PUBLISH with content but no token completes,
with the PUBLISH stage COMPLETED and every earlier stage's COMPLETED status
untouched; the publisher's post handler is where the token check lives, and
its three failure conditions are surfaced distinctly: "Not authenticated
with X" (missing token), "No content to post" (missing content), and
"Failed to post: <reason>" (collaborator error), none of which touches any
stage's status. -/
theorem publish_errors_distinct :
    (∀ (c : Collaborators) (configToken : Option String) (ctx : FlowContext),
        (strTruthy configToken = false → strTruthy ctx.twitterAccessToken = false →
          handlePostTweet c configToken ctx = Except.error "Not authenticated with X") ∧
        (strTruthy configToken = true → ctx.generatedPost = none →
          handlePostTweet c configToken ctx = Except.error "No content to post") ∧
        (∀ (post : GeneratedPost) (e : String), strTruthy configToken = true →
          ctx.generatedPost = some post →
          c.postTweet post.content ((ctx.generatedImages.getD []).head?) = Except.error e →
          handlePostTweet c configToken ctx = Except.error ("Failed to post: " ++ e)) ∧
        (∀ (post : GeneratedPost) (url : String), strTruthy configToken = true →
          ctx.generatedPost = some post →
          c.postTweet post.content ((ctx.generatedImages.getD []).head?) = Except.ok url →
          handlePostTweet c configToken ctx = Except.ok url)) ∧
    ((runFlow collabEcho nsPublishRun).2 = Except.ok () ∧
      (runFlow collabEcho nsPublishRun).1.context.twitterAccessToken = none ∧
      (nodeById (runFlow collabEcho nsPublishRun).1 "publisher").map FlowNode.status =
        some Status.COMPLETED ∧
      (nodeById (runFlow collabEcho nsPublishRun).1 "input").map FlowNode.status =
        some Status.COMPLETED ∧
      (nodeById (runFlow collabEcho nsPublishRun).1 "write").map FlowNode.status =
        some Status.COMPLETED ∧
      handlePostTweet collabEcho none (runFlow collabEcho nsPublishRun).1.context =
        Except.error "Not authenticated with X") := by
  refine ⟨?_, by decide, by decide, by decide, by decide, by decide, by decide⟩
  intro c configToken ctx
  refine ⟨?_, ?_, ?_, ?_⟩
  · intro h1 h2; simp [handlePostTweet, h1, h2]
  · intro h1 h2; simp [handlePostTweet, h1, h2]
  · intro post e h1 h2 h3; simp [handlePostTweet, h1, h2, h3]
  · intro post url h1 h2 h3; simp [handlePostTweet, h1, h2, h3]

/-- Counterexample to Claim C5 as stated: a run that executes PUBLISH with
composed content but with no auth token anywhere in the context does not
fail — it succeeds with PUBLISH marked COMPLETED, so no "not authenticated"
error fails the run. -/
theorem publish_without_token_run_succeeds_cx :
    (runFlow collabEcho nsPublishRun).1.context.twitterAccessToken = none ∧
    (runFlow collabEcho nsPublishRun).2 = Except.ok () ∧
    (nodeById (runFlow collabEcho nsPublishRun).1 "publisher").map FlowNode.status =
      some Status.COMPLETED :=
  ⟨by decide, by decide, by decide⟩

/-- Witness for C5 (amended): the three distinct failures of the post
handler at concrete inputs. -/
theorem publish_errors_distinct_witness :
    handlePostTweet collabEcho none {} = Except.error "Not authenticated with X" ∧
    handlePostTweet collabEcho (some "tok") {} = Except.error "No content to post" ∧
    handlePostTweet collabEcho (some "tok")
        { generatedPost := some { content := "hi", hashtags := [], imagePrompt := "" } } =
      Except.error "Failed to post: net down" := by
  have h1 := publish_errors_distinct.1 collabEcho none {}
  have h2 := publish_errors_distinct.1 collabEcho (some "tok") {}
  have h3 := publish_errors_distinct.1 collabEcho (some "tok")
    { generatedPost := some { content := "hi", hashtags := [], imagePrompt := "" } }
  exact ⟨h1.1 (by decide) (by decide), h2.2.1 (by decide) rfl,
    h3.2.2.1 { content := "hi", hashtags := [], imagePrompt := "" } "net down"
      (by decide) rfl rfl⟩

theorem filter_cons_pos (p : FlowNode → Bool) (a : FlowNode) (l : List FlowNode)
    (h : p a = true) : List.filter p (a :: l) = a :: List.filter p l := by
  simp [List.filter_cons, h]

theorem registryShape_map (f : FlowNode → FlowNode)
    (hty : ∀ n, (f n).type = n.type)
    (hen : ∀ n, isMandatoryType n.type = true → ¬ n.config.enabled = some false →
      ¬ (f n).config.enabled = some false) :
    ∀ ns, registryShape ns → registryShape (ns.map f) := by
  intro ns h
  obtain ⟨a, mid, z, rfl, hA, hAe, hZ, hZe⟩ := h
  refine ⟨f a, mid.map f, f z, ?_, ?_, ?_, ?_, ?_⟩
  · simp
  · rw [hty]; exact hA
  · exact hen a (by simp [isMandatoryType, hA]) hAe
  · rw [hty]; exact hZ
  · exact hen z (by simp [isMandatoryType, hZ]) hZe

theorem registryShape_delete (id : String) (ns : List FlowNode)
    (hg : ∀ n ∈ ns, n.id = id → isMandatoryType n.type = false)
    (h : registryShape ns) : registryShape (onDeleteNode id ns) := by
  obtain ⟨a, mid, z, rfl, hA, hAe, hZ, hZe⟩ := h
  have hqa : (!(a.id == id)) = true := by
    by_cases hc : a.id = id
    · have := hg a (by simp) hc
      rw [hA] at this
      simp [isMandatoryType] at this
    · simp [hc]
  have hqz : (!(z.id == id)) = true := by
    by_cases hc : z.id = id
    · have := hg z (by simp) hc
      rw [hZ] at this
      simp [isMandatoryType] at this
    · simp [hc]
  show registryShape (List.filter _ (a :: (mid ++ [z])))
  rw [filter_cons_pos (fun n => !(n.id == id)) a (mid ++ [z]) hqa, List.filter_append]
  have hz1 : List.filter (fun n => !(n.id == id)) [z] = [z] := by
    rw [filter_cons_pos (fun n => !(n.id == id)) z [] hqz]
    rfl
  rw [hz1]
  exact ⟨a, _, z, rfl, hA, hAe, hZ, hZe⟩

theorem registryShape_initial : registryShape initialNodes :=
  ⟨nodeInput0, [nodeSearch0, nodeWrite0, nodeImage0, nodePreview0, nodePublisher0],
   nodeOutput0, rfl, rfl, by decide, rfl, by decide⟩

theorem planNode_enabled_mandatory (pl : Plan) (n : FlowNode)
    (hm : isMandatoryType n.type = true) :
    (planNode pl n).config.enabled = some true := by
  have ht : n.type = ModuleType.INPUT ∨ n.type = ModuleType.OUTPUT := by
    cases t : n.type <;> rw [t] at hm <;> simp [isMandatoryType] at hm <;> simp
  rcases ht with t | t <;>
    cases hpw : pl.config.writer <;> cases hpi : pl.config.image <;>
      simp [planNode, t, hpw, hpi, isMandatoryType]

theorem registryShape_reachable (ns : List FlowNode) (h : ReachableSafe ns) :
    registryShape ns := by
  induction h with
  | init => exact registryShape_initial
  | toggle id hr ih =>
    refine registryShape_map layoutNode (fun n => rfl) (fun n _ he => he) _
      (registryShape_map (toggleNode id) ?_ ?_ _ ih)
    · intro n
      simp only [toggleNode]
      by_cases h1 : n.id = id <;> by_cases h2 : isMandatoryType n.type <;> simp [h1, h2]
    · intro n hm he
      by_cases h1 : n.id = id
      · simpa [toggleNode, h1, hm] using he
      · simpa [toggleNode, h1] using he
  | update id p hpe hr ih =>
    refine registryShape_map (updateCfgNode id p) (fun n => ?_) (fun n _ he => ?_) _ ih
    · simp only [updateCfgNode]
      by_cases h1 : n.id = id <;> simp [h1]
    · by_cases h1 : n.id = id
      · simpa [updateCfgNode, h1, mergeConfig, hpe] using he
      · simpa [updateCfgNode, h1] using he
  | delete id hg hr ih => exact registryShape_delete id _ hg ih
  | plan pl hr ih =>
    refine registryShape_map layoutNode (fun n => rfl) (fun n _ he => he) _
      (registryShape_map (planNode pl) (fun n => rfl) ?_ _ ih)
    intro n hm _
    rw [planNode_enabled_mandatory pl n hm]
    simp
  | reset ns2 =>
    have h0 : resetFlow ns2 = initialNodes := by
      show initialNodes.map resetNode = initialNodes
      decide
    rw [h0]
    exact registryShape_initial

theorem registryShape_activeOrderGood (ns : List FlowNode) (h : registryShape ns) :
    activeOrderGood ns := by
  obtain ⟨a, mid, z, rfl, hA, hAe, hZ, hZe⟩ := h
  have hpa : (!(a.config.enabled == some false)) = true := by simp [hAe]
  have hpz : (!(z.config.enabled == some false)) = true := by simp [hZe]
  have hact : activeOrder (a :: (mid ++ [z])) =
      a :: (List.filter (fun n => !(n.config.enabled == some false)) mid ++ [z]) := by
    show List.filter _ (a :: (mid ++ [z])) = _
    rw [filter_cons_pos (fun n => !(n.config.enabled == some false)) a (mid ++ [z]) hpa,
      List.filter_append]
    have hz1 : List.filter (fun n => !(n.config.enabled == some false)) [z] = [z] := by
      rw [filter_cons_pos (fun n => !(n.config.enabled == some false)) z [] hpz]
      rfl
    rw [hz1]
  refine ⟨?_, ?_, ?_⟩
  · rw [hact]
    simp [hA]
  · rw [hact]
    have hca : a :: (List.filter (fun n => !(n.config.enabled == some false)) mid ++ [z]) =
        (a :: List.filter (fun n => !(n.config.enabled == some false)) mid) ++ [z] := by
      simp
    rw [hca, List.getLast?_concat]
    simp [hZ]
  · intro n hn
    have := List.of_mem_filter hn
    simpa using this

/-- Claim C6 (amended): for every registry state reachable through the
operations as the UI exposes them — toggle, config updates that do not touch
`enabled`, deletion of non-mandatory nodes, auto-plan, and reset — the
active execution order begins with an INPUT stage, ends with an OUTPUT
stage, and contains no disabled stage.  (The raw `onDeleteNode` and
`onUpdateNodeConfig` operations themselves carry no such guard — see the
counterexample — the restrictions live in the rendering layer.) -/
theorem activeOrder_good_safe_ops (ns : List FlowNode) (h : ReachableSafe ns) :
    activeOrderGood ns :=
  registryShape_activeOrderGood ns (registryShape_reachable ns h)

/-- Counterexample to Claim C6 as stated: the provided deletion operation
accepts the OUTPUT node's id (nothing in `onDeleteNode` guards mandatory
stages), and the resulting registry's active order no longer ends with
OUTPUT. -/
theorem activeOrder_delete_output_cx :
    ¬ activeOrderGood (onDeleteNode "output" initialNodes) := by
  intro h
  exact absurd h.2.1 (by decide)

/-- Witness for C6 (amended): the initial registry's active order is good. -/
theorem activeOrder_good_safe_ops_witness : activeOrderGood initialNodes :=
  activeOrder_good_safe_ops initialNodes ReachableSafe.init

theorem visible_ids_nodup (ns : List FlowNode) (h : (ns.map FlowNode.id).Nodup) :
    ((visibleNodesOf ns).map FlowNode.id).Nodup := by
  have hsub : List.Sublist ((visibleNodesOf ns).map FlowNode.id) (ns.map FlowNode.id) :=
    List.Sublist.map FlowNode.id (List.filter_sublist ns)
  exact List.Nodup.sublist hsub h

theorem nodup_get_id_ne (l : List FlowNode) (h : (l.map FlowNode.id).Nodup)
    (i j : Nat) (hi : i < l.length) (hj : j < l.length) (hij : ¬ i = j) :
    ¬ (l.get ⟨i, hi⟩).id = (l.get ⟨j, hj⟩).id := by
  intro he
  have hmi : i < (l.map FlowNode.id).length := by simpa using hi
  have hmj : j < (l.map FlowNode.id).length := by simpa using hj
  have hge : (l.map FlowNode.id).get ⟨i, hmi⟩ = (l.map FlowNode.id).get ⟨j, hmj⟩ := by
    simp only [List.get_eq_getElem, List.getElem_map]
    simp only [List.get_eq_getElem] at he
    exact he
  have hfin := (List.Nodup.get_inj_iff h).mp hge
  exact hij (by simpa using congrArg Fin.val hfin)

theorem findIndexJs_nodup :
    ∀ l : List FlowNode, (l.map FlowNode.id).Nodup →
      ∀ (k : Nat) (hk : k < l.length),
        findIndexJs (fun m => m.id == (l.get ⟨k, hk⟩).id) l = some k := by
  intro l
  induction l with
  | nil => intro _ k hk; exact absurd hk (by simp)
  | cons a t ih =>
    intro hnd k hk
    rw [List.map_cons, List.nodup_cons] at hnd
    obtain ⟨hna, hts⟩ := hnd
    match k with
    | 0 =>
      show findIndexJs (fun m => m.id == a.id) (a :: t) = some 0
      simp [findIndexJs]
    | Nat.succ k2 =>
      have hk2 : k2 < t.length := Nat.lt_of_succ_lt_succ hk
      have hget : (a :: t).get ⟨k2 + 1, hk⟩ = t.get ⟨k2, hk2⟩ := rfl
      rw [hget]
      have hne : ¬ a.id = (t.get ⟨k2, hk2⟩).id := by
        intro he
        exact hna (he ▸ List.mem_map_of_mem FlowNode.id (t.get_mem k2 hk2))
      have hne2 : ¬ a.id = t[k2].id := by
        simpa [List.get_eq_getElem] using hne
      have hb : (a.id == (t.get ⟨k2, hk2⟩).id) = false := by
        simp [List.get_eq_getElem, hne2]
      simp only [findIndexJs, hb]
      rw [ih hts k2 hk2]
      simp

theorem nodeById_isSome_of_mem (s : RunState) (x : String)
    (hx : x ∈ s.nodes.map FlowNode.id) : ∃ m, nodeById s x = some m := by
  cases hf : s.nodes.find? (fun n => n.id == x) with
  | some m => exact ⟨m, hf⟩
  | none =>
    obtain ⟨n, hn, rfl⟩ := List.mem_map.mp hx
    have := List.find?_eq_none.mp hf n hn
    simp at this

theorem updateNodeStatus_no_error (s : RunState) (id : String) (st : Status)
    (out : Option NodeOutput) (err : Option String) (hst : ¬ st = Status.ERROR)
    (hs : ∀ n ∈ s.nodes, ¬ n.status = Status.ERROR) :
    ∀ n ∈ (updateNodeStatus s id st out err).nodes, ¬ n.status = Status.ERROR := by
  intro n hn
  rw [updateNodeStatus_nodes_map] at hn
  obtain ⟨m, hm, rfl⟩ := List.mem_map.mp hn
  by_cases h : m.id = id
  · simpa [h] using hst
  · simpa [h] using hs m hm

theorem runLoop_ok_no_error (c : Collaborators) (ns0 : List FlowNode) :
    ∀ (fuel : Nat) (cur : FlowNode) (s : RunState),
      (∀ n ∈ s.nodes, ¬ n.status = Status.ERROR) →
      (runLoop c ns0 fuel cur s).2 = Except.ok () →
      ∀ n ∈ (runLoop c ns0 fuel cur s).1.nodes, ¬ n.status = Status.ERROR := by
  intro fuel
  induction fuel with
  | zero => intro cur s hs _; simpa [runLoop_zero] using hs
  | succ fuel ih =>
    intro cur s hs hok
    cases hd : dispatch c cur s.context with
    | error msg =>
      rw [runLoop_succ_err c ns0 fuel cur s msg hd] at hok
      exact absurd hok (by simp)
    | ok pair =>
      obtain ⟨ctx2, out⟩ := pair
      have hbase := updateNodeStatus_no_error
        (updateNodeStatus s cur.id .RUNNING none none) cur.id .COMPLETED out none
        (by simp) (updateNodeStatus_no_error s cur.id .RUNNING none none (by simp) hs)
      have hbase2 : ∀ n ∈ ({ updateNodeStatus (updateNodeStatus s cur.id .RUNNING none none)
            cur.id .COMPLETED out none with context := ctx2 } : RunState).nodes,
          ¬ n.status = Status.ERROR := fun n hn => hbase n hn
      rw [runLoop_succ_ok c ns0 fuel cur s ctx2 out hd] at hok ⊢
      cases hf : findIndexJs (fun m => m.id == cur.id) (visibleNodesOf ns0) with
      | none =>
        simp only [hf] at hok ⊢
        exact hbase2
      | some i =>
        simp only [hf] at hok ⊢
        by_cases h : i + 1 < (visibleNodesOf ns0).length
        · simp only [dif_pos h] at hok ⊢
          exact ih _ _ hbase2 hok
        · simp only [dif_neg h] at hok ⊢
          exact hbase2

theorem runLoop_error_spec (c : Collaborators) (ns0 : List FlowNode)
    (hnd : (ns0.map FlowNode.id).Nodup) :
    ∀ (fuel k : Nat) (hk : k < (visibleNodesOf ns0).length) (s : RunState),
      s.nodes.map FlowNode.id = ns0.map FlowNode.id →
      ∀ em : String,
      (runLoop c ns0 fuel ((visibleNodesOf ns0).get ⟨k, hk⟩) s).2 = Except.error em →
      ∃ j, ∃ hj : j < (visibleNodesOf ns0).length, ∃ msg : String,
        k ≤ j ∧ em = rewriteQuota msg ∧
        (∃ ctx, dispatch c ((visibleNodesOf ns0).get ⟨j, hj⟩) ctx = Except.error msg) ∧
        (∃ m, nodeById (runLoop c ns0 fuel ((visibleNodesOf ns0).get ⟨k, hk⟩) s).1
            ((visibleNodesOf ns0).get ⟨j, hj⟩).id = some m ∧
          m.status = Status.ERROR ∧ m.error = some msg ∧ m.output = none) ∧
        (∀ i (hi : i < (visibleNodesOf ns0).length), j < i →
          nodeById (runLoop c ns0 fuel ((visibleNodesOf ns0).get ⟨k, hk⟩) s).1
              ((visibleNodesOf ns0).get ⟨i, hi⟩).id =
            nodeById s ((visibleNodesOf ns0).get ⟨i, hi⟩).id) := by
  intro fuel
  induction fuel with
  | zero =>
    intro k hk s hids em h
    exact absurd h (by simp [runLoop_zero])
  | succ fuel ih =>
    intro k hk s hids em h
    have hvnd := visible_ids_nodup ns0 hnd
    have hcur_mem : (visibleNodesOf ns0).get ⟨k, hk⟩ ∈ visibleNodesOf ns0 :=
      List.get_mem _ _ _
    have hcur_mem0 : (visibleNodesOf ns0).get ⟨k, hk⟩ ∈ ns0 :=
      List.mem_of_mem_filter hcur_mem
    have hcurid : ((visibleNodesOf ns0).get ⟨k, hk⟩).id ∈ s.nodes.map FlowNode.id := by
      rw [hids]
      exact List.mem_map_of_mem FlowNode.id hcur_mem0
    cases hd : dispatch c ((visibleNodesOf ns0).get ⟨k, hk⟩) s.context with
    | error msg =>
      rw [runLoop_succ_err c ns0 fuel _ s msg hd] at h ⊢
      have hem : em = rewriteQuota msg := by
        have := h.symm
        simpa using this
      refine ⟨k, hk, msg, le_refl k, hem, ⟨s.context, hd⟩, ?_, ?_⟩
      · obtain ⟨m0, hm0⟩ := nodeById_isSome_of_mem s _ hcurid
        have h1 := nodeById_update_self s _ .RUNNING none none m0 hm0
        have h2 := nodeById_update_self (updateNodeStatus s _ .RUNNING none none)
          _ .ERROR none (some msg) _ h1
        exact ⟨_, h2, rfl, rfl, rfl⟩
      · intro i hi hgt
        have hne : ¬ ((visibleNodesOf ns0).get ⟨i, hi⟩).id =
            ((visibleNodesOf ns0).get ⟨k, hk⟩).id :=
          nodup_get_id_ne _ hvnd i k hi hk (by omega)
        rw [nodeById_update_ne _ _ _ _ _ _ hne, nodeById_update_ne _ _ _ _ _ _ hne]
    | ok pair =>
      obtain ⟨ctx2, out⟩ := pair
      rw [runLoop_succ_ok c ns0 fuel _ s ctx2 out hd] at h ⊢
      have hfidx := findIndexJs_nodup (visibleNodesOf ns0) hvnd k hk
      simp only [hfidx] at h ⊢
      by_cases hnext : k + 1 < (visibleNodesOf ns0).length
      · simp only [dif_pos hnext] at h ⊢
        have hids2 : ({ updateNodeStatus
              (updateNodeStatus s ((visibleNodesOf ns0).get ⟨k, hk⟩).id .RUNNING none none)
              ((visibleNodesOf ns0).get ⟨k, hk⟩).id .COMPLETED out none with
            context := ctx2 } : RunState).nodes.map FlowNode.id = ns0.map FlowNode.id := by
          show (updateNodeStatus (updateNodeStatus s _ .RUNNING none none)
            _ .COMPLETED out none).nodes.map FlowNode.id = _
          rw [updateNodeStatus_ids, updateNodeStatus_ids, hids]
        obtain ⟨j, hj, msg, hkj, hem, hdisp, herr, hunch⟩ := ih (k + 1) hnext _ hids2 em h
        refine ⟨j, hj, msg, by omega, hem, hdisp, herr, ?_⟩
        intro i hi hgt
        rw [hunch i hi hgt]
        have hne : ¬ ((visibleNodesOf ns0).get ⟨i, hi⟩).id =
            ((visibleNodesOf ns0).get ⟨k, hk⟩).id :=
          nodup_get_id_ne _ hvnd i k hi hk (by omega)
        rw [nodeById_setContext, nodeById_update_ne _ _ _ _ _ _ hne,
          nodeById_update_ne _ _ _ _ _ _ hne]
      · simp only [dif_neg hnext] at h
        exact absurd h (by simp)

/-- Claim C2 (amended): once any active stage's dispatch fails, that stage's
status is set to ERROR carrying the originating message, no stage after it
in the active order executes — every later active stage is left in its
freshly reset IDLE state — and the run reports failure with the originating
message, except that a message containing "429" or (case-insensitively)
"quota" is rewritten to the fixed quota notice before being surfaced; a run
that reports success has no stage in ERROR. -/
theorem runFlow_abort_on_error (c : Collaborators) (ns : List FlowNode)
    (hnd : (ns.map FlowNode.id).Nodup) (n0 : FlowNode)
    (hf : ns.find? (fun n => isInputType n.type && !n.hidden) = some n0)
    (hen : ¬ n0.config.enabled = some false) :
    (∀ em, (runFlow c ns).2 = Except.error em →
      ∃ j, ∃ hj : j < (visibleNodesOf ns).length, ∃ msg : String,
        em = rewriteQuota msg ∧
        (strContains msg "429" = false →
          strContains (lowerString msg) "quota" = false → em = msg) ∧
        (∃ ctx, dispatch c ((visibleNodesOf ns).get ⟨j, hj⟩) ctx = Except.error msg) ∧
        (∃ m, nodeById (runFlow c ns).1 ((visibleNodesOf ns).get ⟨j, hj⟩).id = some m ∧
          m.status = Status.ERROR ∧ m.error = some msg ∧ m.output = none) ∧
        (∀ i (hi : i < (visibleNodesOf ns).length), j < i →
          nodeById (runFlow c ns).1 ((visibleNodesOf ns).get ⟨i, hi⟩).id =
            some (resetNode ((visibleNodesOf ns).get ⟨i, hi⟩)))) ∧
    ((runFlow c ns).2 = Except.ok () →
      ∀ n ∈ (runFlow c ns).1.nodes, ¬ n.status = Status.ERROR) := by
  have hmem : n0 ∈ ns := List.mem_of_find?_eq_some hf
  have hpred := List.find?_some hf
  have hhid : n0.hidden = false := by
    have h2 := hpred
    simp only [Bool.and_eq_true, Bool.not_eq_true'] at h2
    exact h2.2
  have hvm : n0 ∈ visibleNodesOf ns :=
    List.mem_filter_of_mem hmem (by simp [hhid, hen])
  obtain ⟨⟨k, hk⟩, hgetk⟩ := List.mem_iff_get.mp hvm
  have hrf : runFlow c ns =
      runLoop c ns 50 n0 { nodes := ns.map resetNode, events := [], context := {} } := by
    simp only [runFlow, hf]
  have hids0 : ({ nodes := ns.map resetNode, events := [], context := {} } :
      RunState).nodes.map FlowNode.id = ns.map FlowNode.id := by
    show (ns.map resetNode).map FlowNode.id = ns.map FlowNode.id
    rw [List.map_map]
    rfl
  constructor
  · intro em hem2
    rw [hrf, ← hgetk] at hem2
    obtain ⟨j, hj, msg, hkj, hem, hdisp, herr, hunch⟩ :=
      runLoop_error_spec c ns hnd 50 k hk _ hids0 em hem2
    refine ⟨j, hj, msg, hem, ?_, hdisp, ?_, ?_⟩
    · intro h4 hq
      rw [hem]
      simp only [rewriteQuota, h4, hq]
      simp
    · rw [hrf, ← hgetk]
      exact herr
    · intro i hi hgt
      rw [hrf, ← hgetk, hunch i hi hgt]
      have hvim : (visibleNodesOf ns).get ⟨i, hi⟩ ∈ ns :=
        List.mem_of_mem_filter (List.get_mem _ _ _)
      show (ns.map resetNode).find? _ = _
      rw [find_map_id resetNode (fun m => rfl) _ ns, find_self_nodup ns hnd _ hvim,
        Option.map_some']
  · intro hok
    rw [hrf] at hok ⊢
    refine runLoop_ok_no_error c ns 50 n0 _ ?_ hok
    intro n hn
    obtain ⟨m, hm, rfl⟩ := List.mem_map.mp hn
    simp [resetNode]

/-- Counterexample to Claim C2 as stated: a SEARCH stage whose collaborator
fails with the message "429" records exactly that message on the stage, but
the run surfaces the rewritten quota notice to the caller instead of the
originating error. -/
theorem quota_rewrite_surfaced_cx :
    (nodeById (runFlow collabQuota nsSearchRun).1 "search").map
        (fun n => (n.status, n.error)) = some (Status.ERROR, some "429") ∧
    (runFlow collabQuota nsSearchRun).2 =
      Except.error "API Quota Exceeded. Please check your billing or API limits." ∧
    ¬ (runFlow collabQuota nsSearchRun).2 = Except.error "429" :=
  ⟨by decide, by decide, by decide⟩

/-- Witness for C2 (amended): a run failing at SEARCH with a generic message
surfaces that very message and records it on the ERROR stage. -/
theorem runFlow_abort_on_error_witness :
    (runFlow collabBoom nsSearchRun).2 = Except.error "boom" ∧
    ∃ j, ∃ hj : j < (visibleNodesOf nsSearchRun).length, ∃ msg : String,
      "boom" = rewriteQuota msg ∧
      ∃ m, nodeById (runFlow collabBoom nsSearchRun).1
          ((visibleNodesOf nsSearchRun).get ⟨j, hj⟩).id = some m ∧
        m.status = Status.ERROR ∧ m.error = some msg ∧ m.output = none := by
  have hmain := (runFlow_abort_on_error collabBoom nsSearchRun (by decide)
    (nodeInputT (some "t") none) (by decide) (by decide)).1 "boom" (by decide)
  obtain ⟨j, hj, msg, hem, _, _, herr, _⟩ := hmain
  exact ⟨by decide, j, hj, msg, hem, herr⟩

end ContentPilot
